import Mathlib

/-!
Verification of the Training-assistant repetition-counting core.

This file shallowly embeds the angle-driven repetition detection engine:

* `calculate_angle` from `core/pose_estimation.py` (`PoseEstimator.calculate_angle`);
* `RepetitionCounter` from `core/exercise_detector.py` with its operations
  `_setup_exercise_parameters`, `get_primary_angle`, `smooth_angle`, `update`,
  `_detect_repetition`, `_evaluate_form` (with the three per-exercise form
  evaluators) and `reset`;
* `ExerciseLibrary.get_exercise` from `exercises/exercise_library.py`.

Python float values are modelled by `FloatQ`: either an exact rational or
NaN.  NaN is what numpy produces from the 0/0 division in the degenerate
branch of `calculate_angle`; it propagates through arithmetic and makes every
ordered comparison false, exactly as IEEE floats behave in the Python code.
All numbers appearing in the program are small decimals, so rational
arithmetic mirrors the float computations on every branch condition.
-/

namespace TrainingAssistant

/-- Python `str.lower` on one character: the sources only ever lowercase
ASCII exercise identifiers. -/
def charToLower (c : Char) : Char :=
  if 65 ≤ c.toNat ∧ c.toNat ≤ 90 then Char.ofNat (c.toNat + 32) else c

/-- Python `str.lower`, as applied to exercise identifiers. -/
def strToLower (s : String) : String := ⟨s.data.map charToLower⟩

/-- A Python float as it flows through the counter: NaN or an exact value. -/
inductive FloatQ where
  | nan : FloatQ
  | val : ℚ → FloatQ
deriving DecidableEq

/-- Float addition: NaN propagates. -/
def FloatQ.add : FloatQ → FloatQ → FloatQ
  | FloatQ.val a, FloatQ.val b => FloatQ.val (a + b)
  | _, _ => FloatQ.nan

/-- Division of a float by a rational constant (used for `(l + r) / 2`). -/
def FloatQ.divQ : FloatQ → ℚ → FloatQ
  | FloatQ.val a, q => if q = 0 then FloatQ.nan else FloatQ.val (a / q)
  | FloatQ.nan, _ => FloatQ.nan

/-- Division by a length, as in `np.mean`; numpy turns a zero length into NaN. -/
def FloatQ.divNat : FloatQ → Nat → FloatQ
  | _, 0 => FloatQ.nan
  | FloatQ.nan, _ => FloatQ.nan
  | FloatQ.val a, n => FloatQ.val (a / (n : ℚ))

/-- `x < t` on floats: false whenever `x` is NaN, as in Python. -/
def FloatQ.ltQ : FloatQ → ℚ → Bool
  | FloatQ.val a, t => decide (a < t)
  | FloatQ.nan, _ => false

/-- `x > t` on floats: false whenever `x` is NaN, as in Python. -/
def FloatQ.gtQ : FloatQ → ℚ → Bool
  | FloatQ.val a, t => decide (t < a)
  | FloatQ.nan, _ => false

/-- `abs(a - b)` on floats: NaN propagates. -/
def FloatQ.absSub : FloatQ → FloatQ → FloatQ
  | FloatQ.val a, FloatQ.val b => FloatQ.val |a - b|
  | _, _ => FloatQ.nan

/-- Python truthiness of an optional float: `None` and `0.0` are falsy,
NaN and every other float are truthy (`if left_arm and right_arm: ...`). -/
def truthy : Option FloatQ → Bool
  | none => false
  | some FloatQ.nan => true
  | some (FloatQ.val q) => decide (q ≠ 0)

/-- Sum of a list of floats, as computed by numpy: NaN contaminates. -/
def floatSum (xs : List FloatQ) : FloatQ := xs.foldl FloatQ.add (FloatQ.val 0)

/-- `np.mean` over a list of floats: sum divided by length. -/
def npMean (xs : List FloatQ) : FloatQ := (floatSum xs).divNat xs.length

/-- `collections.deque(maxlen = w)` append: add on the right, evict the
oldest entries on the left once the length exceeds `w`. -/
def dequeAppend (xs : List FloatQ) (x : FloatQ) (w : Nat) : List FloatQ :=
  let h := xs ++ [x]
  if w < h.length then h.drop (h.length - w) else h

/-- `PoseEstimator.calculate_angle` (`core/pose_estimation.py`).  Computes
`degrees(arccos(clip(dot(ba, bc) / (norm(ba) * norm(bc)), -1, 1)))` on exact
points.  When either edge vector is zero the norm product is zero and numpy
evaluates `0.0 / 0.0` to NaN, which `clip`, `arccos` and `degrees` all
propagate, so the function returns NaN without raising.  The non-degenerate
value involves square roots and an arccosine, irrational in general; it is
abstracted as the parameter `degCos` applied to the dot product and the
squared norm product, about which the theorems below assume nothing. -/
def calculate_angle (degCos : ℚ → ℚ → ℚ) (point1 point2 point3 : ℚ × ℚ) : FloatQ :=
  let ba := (point1.1 - point2.1, point1.2 - point2.2)
  let bc := (point3.1 - point2.1, point3.2 - point2.2)
  let dot := ba.1 * bc.1 + ba.2 * bc.2
  let normProdSq := (ba.1 ^ 2 + ba.2 ^ 2) * (bc.1 ^ 2 + bc.2 ^ 2)
  if normProdSq = 0 then FloatQ.nan
  else FloatQ.val (degCos dot normProdSq)

/-- The per-frame angle dictionary handed to `RepetitionCounter.update`; the
counter only ever reads the keys `left_arm`, `right_arm`, `left_leg`,
`right_leg`, each present or absent. -/
structure AngleMap where
  left_arm : Option FloatQ
  right_arm : Option FloatQ
  left_leg : Option FloatQ
  right_leg : Option FloatQ
deriving DecidableEq

/-- The mutable state of `RepetitionCounter` (`core/exercise_detector.py`). -/
structure RepetitionCounter where
  exercise_type : String
  smoothing_window : Nat
  angle_history : List FloatQ
  rep_count : Nat
  in_rep : Bool
  last_direction : Option String
  min_angle_threshold : ℚ
  max_angle_threshold : ℚ
  primary_angle : String
  current_phase : String
  form_feedback : List String
deriving DecidableEq

/-- `RepetitionCounter._setup_exercise_parameters`: the exercise-specific
thresholds and primary-angle selector, with the final `else` supplying
default parameters for any unknown exercise type. -/
def setup_exercise_parameters (ex : String) : ℚ × ℚ × String :=
  if ex = "pushups" then (70, 160, "arm")
  else if ex = "squats" then (70, 160, "leg")
  else if ex = "pullups" then (40, 160, "arm")
  else if ex = "lunges" then (80, 160, "leg")
  else if ex = "bicep_curls" then (30, 160, "arm")
  else (70, 160, "arm")

/-- `RepetitionCounter.__init__`: lowercases the exercise type, starts with
an empty history, zero reps and phase `"ready"`, then installs the
exercise-specific parameters. -/
def RepetitionCounter.init (exercise_type : String) (smoothing_window : Nat) :
    RepetitionCounter :=
  let ex := strToLower exercise_type
  let p := setup_exercise_parameters ex
  { exercise_type := ex
    smoothing_window := smoothing_window
    angle_history := []
    rep_count := 0
    in_rep := false
    last_direction := none
    min_angle_threshold := p.1
    max_angle_threshold := p.2.1
    primary_angle := p.2.2
    current_phase := "ready"
    form_feedback := [] }

/-- `RepetitionCounter.get_primary_angle`: mean of both sides of the
selector limb pair when both are present, the single present side otherwise,
`None` when neither is present (or the selector is neither arm nor leg). -/
def RepetitionCounter.get_primary_angle (s : RepetitionCounter) (angles : AngleMap) :
    Option FloatQ :=
  if s.primary_angle = "arm" then
    match angles.left_arm, angles.right_arm with
    | some l, some r => some ((l.add r).divQ 2)
    | some l, none => some l
    | none, some r => some r
    | none, none => none
  else if s.primary_angle = "leg" then
    match angles.left_leg, angles.right_leg with
    | some l, some r => some ((l.add r).divQ 2)
    | some l, none => some l
    | none, some r => some r
    | none, none => none
  else none

/-- `RepetitionCounter.smooth_angle`: append to the bounded history, return
the mean of everything currently held. -/
def RepetitionCounter.smooth_angle (s : RepetitionCounter) (angle : FloatQ) :
    RepetitionCounter × FloatQ :=
  let h := dequeAppend s.angle_history angle s.smoothing_window
  ({ s with angle_history := h }, npMean h)

/-- `RepetitionCounter._detect_repetition`: the phase state machine.  The
source assigns the second-leg label (`"up"` for the down-up family, `"down"`
for the up-down family), increments the count, and then immediately
reassigns `"ready"`; the embedding performs the same sequence of record
updates. -/
def RepetitionCounter.detect_repetition (s : RepetitionCounter) (angle : FloatQ) :
    RepetitionCounter × Bool :=
  if s.exercise_type ∈ (["pushups", "squats", "lunges"] : List String) then
    if s.current_phase = "ready" then
      if angle.ltQ s.min_angle_threshold then
        ({ s with current_phase := "down" }, false)
      else (s, false)
    else if s.current_phase = "down" then
      if angle.gtQ s.max_angle_threshold then
        let s1 := { s with current_phase := "up" }
        let s2 := { s1 with rep_count := s1.rep_count + 1 }
        let s3 := { s2 with current_phase := "ready" }
        (s3, true)
      else (s, false)
    else (s, false)
  else if s.exercise_type ∈ (["pullups", "bicep_curls"] : List String) then
    if s.current_phase = "ready" then
      if angle.ltQ s.min_angle_threshold then
        ({ s with current_phase := "up" }, false)
      else (s, false)
    else if s.current_phase = "up" then
      if angle.gtQ s.max_angle_threshold then
        let s1 := { s with current_phase := "down" }
        let s2 := { s1 with rep_count := s1.rep_count + 1 }
        let s3 := { s2 with current_phase := "ready" }
        (s3, true)
      else (s, false)
    else (s, false)
  else (s, false)

/-- `RepetitionCounter._evaluate_pushup_form`: arm symmetry (tolerance 15,
guarded by Python truthiness of both sides) then depth in the down phase. -/
def RepetitionCounter.evaluate_pushup_form (s : RepetitionCounter) (angles : AngleMap)
    (primary_angle : FloatQ) : List String :=
  let symmetryFires : Bool :=
    match angles.left_arm, angles.right_arm with
    | some l, some r => truthy (some l) && truthy (some r) && (l.absSub r).gtQ 15
    | _, _ => false
  let feedback := if symmetryFires then ["Keep arms symmetric"] else []
  if s.current_phase = "down" && primary_angle.gtQ 90 then
    feedback ++ ["Go lower - chest to ground"]
  else feedback

/-- `RepetitionCounter._evaluate_squat_form`: depth in the down phase, then
leg symmetry with tolerance 20. -/
def RepetitionCounter.evaluate_squat_form (s : RepetitionCounter) (angles : AngleMap)
    (primary_angle : FloatQ) : List String :=
  let feedback :=
    if s.current_phase = "down" && primary_angle.gtQ 90 then
      ["Squat deeper - thighs parallel to ground"]
    else []
  let symmetryFires : Bool :=
    match angles.left_leg, angles.right_leg with
    | some l, some r => truthy (some l) && truthy (some r) && (l.absSub r).gtQ 20
    | _, _ => false
  if symmetryFires then feedback ++ ["Balance both legs evenly"] else feedback

/-- `RepetitionCounter._evaluate_pullup_form`: extension at the bottom in
the ready phase, chin-over-bar in the up phase. -/
def RepetitionCounter.evaluate_pullup_form (s : RepetitionCounter) (_angles : AngleMap)
    (primary_angle : FloatQ) : List String :=
  let feedback :=
    if s.current_phase = "ready" && primary_angle.ltQ 150 then
      ["Full arm extension at bottom"]
    else []
  if s.current_phase = "up" && primary_angle.gtQ 50 then
    feedback ++ ["Pull chin over the bar"]
  else feedback

/-- The rule-derived part of `RepetitionCounter._evaluate_form`: the value of
the local `feedback` list just before the affirmative-message fallback. -/
def RepetitionCounter.form_rule_feedback (s : RepetitionCounter) (angles : AngleMap)
    (primary_angle : FloatQ) : List String :=
  if s.exercise_type = "pushups" then s.evaluate_pushup_form angles primary_angle
  else if s.exercise_type = "squats" then s.evaluate_squat_form angles primary_angle
  else if s.exercise_type = "pullups" then s.evaluate_pullup_form angles primary_angle
  else
    if s.current_phase = "down" && primary_angle.gtQ (s.min_angle_threshold + 20) then
      ["Go deeper"]
    else if s.current_phase = "up" && primary_angle.ltQ (s.max_angle_threshold - 20) then
      ["Full extension"]
    else []

/-- `RepetitionCounter._evaluate_form`: the rule feedback, or — when no rule
fired — exactly one affirmative message chosen by the current phase. -/
def RepetitionCounter.evaluate_form (s : RepetitionCounter) (angles : AngleMap)
    (primary_angle : FloatQ) : List String :=
  let feedback := s.form_rule_feedback angles primary_angle
  if feedback = [] then
    if s.current_phase = "ready" then ["Good form! Ready for next rep"]
    else ["Keep going!"]
  else feedback

/-- The dictionary returned by `RepetitionCounter.update`; the early
pose-not-detected return carries no `rep_detected` key, modelled by `none`. -/
structure UpdateResult where
  rep_count : Nat
  current_phase : String
  form_feedback : List String
  angle : Option FloatQ
  rep_detected : Option Bool
deriving DecidableEq

/-- `RepetitionCounter.update`: resolve the primary angle (early return on
failure), smooth it, run the phase machine, evaluate form, and report. -/
def RepetitionCounter.update (s : RepetitionCounter) (angles : AngleMap) :
    RepetitionCounter × UpdateResult :=
  match s.get_primary_angle angles with
  | none =>
    (s, { rep_count := s.rep_count
          current_phase := s.current_phase
          form_feedback := ["Unable to detect pose"]
          angle := none
          rep_detected := none })
  | some primary_angle =>
    let sm := s.smooth_angle primary_angle
    let s1 := sm.1
    let smoothed_angle := sm.2
    let dr := s1.detect_repetition smoothed_angle
    let s2 := dr.1
    let rep_detected := dr.2
    let feedback := s2.evaluate_form angles smoothed_angle
    (s2, { rep_count := s2.rep_count
           current_phase := s2.current_phase
           form_feedback := feedback
           angle := some smoothed_angle
           rep_detected := some rep_detected })

/-- `RepetitionCounter.reset`: zero the count, return to ready, clear the
history and the stored feedback; every other field is untouched. -/
def RepetitionCounter.reset (s : RepetitionCounter) : RepetitionCounter :=
  { s with
    rep_count := 0
    current_phase := "ready"
    angle_history := []
    form_feedback := [] }

/-- Fold a sequence of frames through `update`, keeping the state. -/
def RepetitionCounter.runUpdates (s : RepetitionCounter) (frames : List AngleMap) :
    RepetitionCounter :=
  frames.foldl (fun st a => (st.update a).1) s

/-- Feed a list of already-smoothed angles directly to the phase machine,
collecting the rep-detected flag of each step. -/
def RepetitionCounter.runDetect (s : RepetitionCounter) (angles : List FloatQ) :
    RepetitionCounter × List Bool :=
  angles.foldl (fun acc a =>
    let r := acc.1.detect_repetition a
    (r.1, acc.2 ++ [r.2])) (s, [])

/-- One record of `ExerciseConfig` (`exercises/exercise_library.py`),
restricted to the scalar and list fields the dataclass carries. -/
structure ExerciseConfig where
  name : String
  display_name : String
  primary_muscle_groups : List String
  min_angle_threshold : ℚ
  max_angle_threshold : ℚ
  primary_angle_type : String
  movement_pattern : String
  form_checks : List String
  difficulty_level : String
deriving DecidableEq

/-- The `"pushups"` entry of `ExerciseLibrary._load_exercise_configs`. -/
def pushupsConfig : ExerciseConfig :=
  { name := "pushups", display_name := "Push-ups"
    primary_muscle_groups := ["chest", "shoulders", "triceps"]
    min_angle_threshold := 70, max_angle_threshold := 160
    primary_angle_type := "arm", movement_pattern := "down_up"
    form_checks := ["arm_symmetry", "depth_check", "back_straight"]
    difficulty_level := "beginner" }

/-- The `"squats"` entry of `ExerciseLibrary._load_exercise_configs`. -/
def squatsConfig : ExerciseConfig :=
  { name := "squats", display_name := "Squats"
    primary_muscle_groups := ["quadriceps", "glutes", "hamstrings"]
    min_angle_threshold := 70, max_angle_threshold := 160
    primary_angle_type := "leg", movement_pattern := "down_up"
    form_checks := ["leg_symmetry", "depth_check", "knee_alignment"]
    difficulty_level := "beginner" }

/-- The `"pullups"` entry of `ExerciseLibrary._load_exercise_configs`. -/
def pullupsConfig : ExerciseConfig :=
  { name := "pullups", display_name := "Pull-ups"
    primary_muscle_groups := ["back", "biceps", "rear_deltoids"]
    min_angle_threshold := 40, max_angle_threshold := 160
    primary_angle_type := "arm", movement_pattern := "up_down"
    form_checks := ["full_extension", "chin_over_bar", "arm_symmetry"]
    difficulty_level := "intermediate" }

/-- The `"lunges"` entry of `ExerciseLibrary._load_exercise_configs`. -/
def lungesConfig : ExerciseConfig :=
  { name := "lunges", display_name := "Lunges"
    primary_muscle_groups := ["quadriceps", "glutes", "calves"]
    min_angle_threshold := 80, max_angle_threshold := 160
    primary_angle_type := "leg", movement_pattern := "down_up"
    form_checks := ["front_knee_alignment", "depth_check", "balance"]
    difficulty_level := "beginner" }

/-- The `"bicep_curls"` entry of `ExerciseLibrary._load_exercise_configs`. -/
def bicepCurlsConfig : ExerciseConfig :=
  { name := "bicep_curls", display_name := "Bicep Curls"
    primary_muscle_groups := ["biceps"]
    min_angle_threshold := 30, max_angle_threshold := 160
    primary_angle_type := "arm", movement_pattern := "up_down"
    form_checks := ["elbow_stability", "full_range_motion", "controlled_movement"]
    difficulty_level := "beginner" }

/-- The `"shoulder_press"` entry of `ExerciseLibrary._load_exercise_configs`. -/
def shoulderPressConfig : ExerciseConfig :=
  { name := "shoulder_press", display_name := "Shoulder Press"
    primary_muscle_groups := ["shoulders", "triceps"]
    min_angle_threshold := 45, max_angle_threshold := 170
    primary_angle_type := "arm", movement_pattern := "up_down"
    form_checks := ["arm_symmetry", "full_extension", "core_stability"]
    difficulty_level := "intermediate" }

/-- The `"planks"` entry of `ExerciseLibrary._load_exercise_configs`: the
only profile with movement pattern `"hold"`. -/
def planksConfig : ExerciseConfig :=
  { name := "planks", display_name := "Planks"
    primary_muscle_groups := ["core", "shoulders"]
    min_angle_threshold := 170, max_angle_threshold := 190
    primary_angle_type := "body", movement_pattern := "hold"
    form_checks := ["straight_back", "core_engagement", "breathing"]
    difficulty_level := "beginner" }

/-- `ExerciseLibrary.get_exercise`: `self.exercises.get(name.lower())` over
the seven loaded configurations — `None`, with no exception, for an
unregistered identifier. -/
def ExerciseLibrary.get_exercise (exercise_name : String) : Option ExerciseConfig :=
  let k := strToLower exercise_name
  if k = "pushups" then some pushupsConfig
  else if k = "squats" then some squatsConfig
  else if k = "pullups" then some pullupsConfig
  else if k = "lunges" then some lungesConfig
  else if k = "bicep_curls" then some bicepCurlsConfig
  else if k = "shoulder_press" then some shoulderPressConfig
  else if k = "planks" then some planksConfig
  else none

/-- Primary-angle selection as the spec words it: the arithmetic mean of the
two sides when both are present, the single present side when exactly one
is, and missing when neither is. -/
def primary_angle_spec (left right : Option FloatQ) : Option FloatQ :=
  match left, right with
  | some l, some r => some ((l.add r).divQ 2)
  | some l, none => some l
  | none, some r => some r
  | none, none => none

/-- The phase label of the first leg of a repetition, as the counter's state
machine assigns it to a stored (already lowercased) exercise type: `"down"`
for the down-up family, `"up"` for the up-down family, and `"ready"` (no
first leg is ever entered) for every other exercise. -/
def firstLegPhase (exercise_type : String) : String :=
  if exercise_type ∈ (["pushups", "squats", "lunges"] : List String) then "down"
  else if exercise_type ∈ (["pullups", "bicep_curls"] : List String) then "up"
  else "ready"

/-! ## Helper lemmas -/

theorem smooth_angle_rep_count (s : RepetitionCounter) (x : FloatQ) :
    (s.smooth_angle x).1.rep_count = s.rep_count := rfl

theorem smooth_angle_phase (s : RepetitionCounter) (x : FloatQ) :
    (s.smooth_angle x).1.current_phase = s.current_phase := rfl

theorem smooth_angle_exercise_type (s : RepetitionCounter) (x : FloatQ) :
    (s.smooth_angle x).1.exercise_type = s.exercise_type := rfl

theorem detect_repetition_rep_count (s : RepetitionCounter) (x : FloatQ) :
    (s.detect_repetition x).1.rep_count = s.rep_count ∨
      (s.detect_repetition x).1.rep_count = s.rep_count + 1 := by
  unfold RepetitionCounter.detect_repetition
  split_ifs <;> simp

theorem detect_repetition_exercise_type (s : RepetitionCounter) (x : FloatQ) :
    (s.detect_repetition x).1.exercise_type = s.exercise_type := by
  unfold RepetitionCounter.detect_repetition
  split_ifs <;> rfl

theorem update_rep_count (s : RepetitionCounter) (a : AngleMap) :
    (s.update a).1.rep_count = s.rep_count ∨
      (s.update a).1.rep_count = s.rep_count + 1 := by
  unfold RepetitionCounter.update
  cases h : s.get_primary_angle a with
  | none => simp
  | some pa =>
    simpa [smooth_angle_rep_count] using
      detect_repetition_rep_count (s.smooth_angle pa).1 (s.smooth_angle pa).2

theorem update_exercise_type (s : RepetitionCounter) (a : AngleMap) :
    (s.update a).1.exercise_type = s.exercise_type := by
  unfold RepetitionCounter.update
  cases h : s.get_primary_angle a with
  | none => simp
  | some pa =>
    simpa [smooth_angle_exercise_type] using
      detect_repetition_exercise_type (s.smooth_angle pa).1 (s.smooth_angle pa).2

theorem runUpdates_rep_count_le (s : RepetitionCounter) (frames : List AngleMap) :
    s.rep_count ≤ (s.runUpdates frames).rep_count := by
  induction frames generalizing s with
  | nil => exact le_refl _
  | cons a rest ih =>
    have h1 : s.rep_count ≤ (s.update a).1.rep_count := by
      rcases update_rep_count s a with h | h <;> omega
    exact h1.trans (ih (s.update a).1)

/-! ## The claims -/

/-- C1 counterexample: at the concrete unregistered identifier
`"not_a_registered_exercise"`, library lookup yields `none` (no exception)
and counter construction nevertheless succeeds, silently installing the
default profile (thresholds 70/160, arm selector) — contradicting the
claim that construction fails and never substitutes a default. -/
theorem claim_C1_counterexample :
    ExerciseLibrary.get_exercise "not_a_registered_exercise" = none ∧
    (RepetitionCounter.init "not_a_registered_exercise" 5).min_angle_threshold = 70 ∧
    (RepetitionCounter.init "not_a_registered_exercise" 5).max_angle_threshold = 160 ∧
    (RepetitionCounter.init "not_a_registered_exercise" 5).primary_angle = "arm" ∧
    (RepetitionCounter.init "not_a_registered_exercise" 5).rep_count = 0 ∧
    (RepetitionCounter.init "not_a_registered_exercise" 5).current_phase = "ready" := by
  refine ⟨?_, ?_, ?_, ?_, ?_, ?_⟩ <;> decide

/-- C1 amended: construction with an identifier that is not in the registry
does not fail; the counter is built with the default parameters
(`min_angle_threshold = 70`, `max_angle_threshold = 160`, arm selector),
and `ExerciseLibrary.get_exercise` returns `None` without raising. -/
theorem claim_C1_amended (name : String) (w : Nat)
    (h : ExerciseLibrary.get_exercise name = none) :
    (RepetitionCounter.init name w).min_angle_threshold = 70 ∧
    (RepetitionCounter.init name w).max_angle_threshold = 160 ∧
    (RepetitionCounter.init name w).primary_angle = "arm" := by
  unfold ExerciseLibrary.get_exercise at h
  simp only at h
  split_ifs at h with h1 h2 h3 h4 h5 h6 h7
  simp [RepetitionCounter.init, setup_exercise_parameters, h1, h2, h3, h4, h5]

/-- C1 witness: the amended statement applied at the concrete unregistered
identifier `"zzz"` with window 5. -/
theorem claim_C1_amended_witness :
    (RepetitionCounter.init "zzz" 5).min_angle_threshold = 70 ∧
    (RepetitionCounter.init "zzz" 5).max_angle_threshold = 160 ∧
    (RepetitionCounter.init "zzz" 5).primary_angle = "arm" :=
  claim_C1_amended "zzz" 5 (by decide)

/-- C2: whenever the primary angle cannot be resolved from the frame, update
leaves the whole counter state unchanged (in particular `rep_count` and
`current_phase`) and reports the pose-not-detected feedback message, a
missing angle, and no rep-detected flag. -/
theorem claim_C2_missing_angle_holds (s : RepetitionCounter) (a : AngleMap)
    (h : s.get_primary_angle a = none) :
    (s.update a).1 = s ∧
    (s.update a).2.rep_count = s.rep_count ∧
    (s.update a).2.current_phase = s.current_phase ∧
    (s.update a).2.form_feedback = ["Unable to detect pose"] ∧
    (s.update a).2.angle = none ∧
    (s.update a).2.rep_detected = none := by
  simp [RepetitionCounter.update, h]

/-- C2 witness: a pushups counter fed a frame with every joint pair absent. -/
theorem claim_C2_missing_angle_holds_witness :
    ((RepetitionCounter.init "pushups" 5).update ⟨none, none, none, none⟩).1 =
      RepetitionCounter.init "pushups" 5 ∧
    ((RepetitionCounter.init "pushups" 5).update ⟨none, none, none, none⟩).2.rep_count =
      (RepetitionCounter.init "pushups" 5).rep_count ∧
    ((RepetitionCounter.init "pushups" 5).update ⟨none, none, none, none⟩).2.current_phase =
      (RepetitionCounter.init "pushups" 5).current_phase ∧
    ((RepetitionCounter.init "pushups" 5).update ⟨none, none, none, none⟩).2.form_feedback =
      ["Unable to detect pose"] ∧
    ((RepetitionCounter.init "pushups" 5).update ⟨none, none, none, none⟩).2.angle = none ∧
    ((RepetitionCounter.init "pushups" 5).update ⟨none, none, none, none⟩).2.rep_detected =
      none :=
  claim_C2_missing_angle_holds (RepetitionCounter.init "pushups" 5)
    ⟨none, none, none, none⟩ (by decide)

/-- C5: a pushups counter (down-up pattern, thresholds 70/160) fed the
smoothed angles 170, 150, 120, 80, 65, 90, 130, 165 reports the
rep-detected flag exactly on the last value and finishes with one rep. -/
theorem claim_C5_down_up_trace :
    (RepetitionCounter.init "pushups" 5).min_angle_threshold = 70 ∧
    (RepetitionCounter.init "pushups" 5).max_angle_threshold = 160 ∧
    ((RepetitionCounter.init "pushups" 5).runDetect
        (([170, 150, 120, 80, 65, 90, 130, 165] : List ℚ).map FloatQ.val)).2 =
      [false, false, false, false, false, false, false, true] ∧
    ((RepetitionCounter.init "pushups" 5).runDetect
        (([170, 150, 120, 80, 65, 90, 130, 165] : List ℚ).map FloatQ.val)).1.rep_count =
      1 := by
  refine ⟨?_, ?_, ?_, ?_⟩ <;> decide

/-- C6: reset zeroes the count, returns the phase to ready, empties the
smoothing buffer, and leaves the profile-derived fields (exercise type,
both thresholds, the primary-angle selector) untouched. -/
theorem claim_C6_reset (s : RepetitionCounter) :
    s.reset.rep_count = 0 ∧
    s.reset.current_phase = "ready" ∧
    s.reset.angle_history = [] ∧
    s.reset.exercise_type = s.exercise_type ∧
    s.reset.min_angle_threshold = s.min_angle_threshold ∧
    s.reset.max_angle_threshold = s.max_angle_threshold ∧
    s.reset.primary_angle = s.primary_angle ∧
    s.reset.smoothing_window = s.smoothing_window :=
  ⟨rfl, rfl, rfl, rfl, rfl, rfl, rfl, rfl⟩

/-- C4: over any sequence of updates on one counter with no reset, the
repetition count is non-decreasing, and one update call raises it by at
most one. -/
theorem claim_C4_rep_count_monotone (s : RepetitionCounter) (frames : List AngleMap)
    (a : AngleMap) :
    s.rep_count ≤ (s.runUpdates frames).rep_count ∧
    (s.update a).1.rep_count ≤ s.rep_count + 1 := by
  refine ⟨runUpdates_rep_count_le s frames, ?_⟩
  rcases update_rep_count s a with h | h <;> omega

/-- C8: when no form-check rule fires, the form evaluator returns exactly
the one affirmative message selected by the current phase. -/
theorem claim_C8_affirmative_feedback (s : RepetitionCounter) (angles : AngleMap)
    (primary_angle : FloatQ) (h : s.form_rule_feedback angles primary_angle = []) :
    s.evaluate_form angles primary_angle =
      if s.current_phase = "ready" then ["Good form! Ready for next rep"]
      else ["Keep going!"] := by
  unfold RepetitionCounter.evaluate_form
  simp [h]

/-- C8 witness: a ready pushups counter with a single present arm at 100
degrees fires no rule and receives the ready-phase affirmative message. -/
theorem claim_C8_affirmative_feedback_witness :
    (RepetitionCounter.init "pushups" 5).evaluate_form
        ⟨some (FloatQ.val 100), none, none, none⟩ (FloatQ.val 100) =
      ["Good form! Ready for next rep"] :=
  (claim_C8_affirmative_feedback (RepetitionCounter.init "pushups" 5)
      ⟨some (FloatQ.val 100), none, none, none⟩ (FloatQ.val 100)
      (by decide)).trans (by decide)

theorem get_primary_angle_arm (s : RepetitionCounter) (angles : AngleMap)
    (h : s.primary_angle = "arm") :
    s.get_primary_angle angles = primary_angle_spec angles.left_arm angles.right_arm := by
  rcases angles with ⟨la, ra, ll, rl⟩
  unfold RepetitionCounter.get_primary_angle primary_angle_spec
  rw [h]
  cases la <;> cases ra <;> simp

theorem get_primary_angle_leg (s : RepetitionCounter) (angles : AngleMap)
    (h : s.primary_angle = "leg") :
    s.get_primary_angle angles = primary_angle_spec angles.left_leg angles.right_leg := by
  rcases angles with ⟨la, ra, ll, rl⟩
  unfold RepetitionCounter.get_primary_angle primary_angle_spec
  rw [h]
  cases ll <;> cases rl <;> simp

/-- C9: every constructed counter selects either the arm pair or the leg
pair, and on that pair the selection is exactly the spec-worded rule:
mean of both sides when both are present, the single present side when
exactly one is, missing when neither is. -/
theorem claim_C9_primary_selection (ex : String) (w : Nat) (angles : AngleMap) :
    ((RepetitionCounter.init ex w).primary_angle = "arm" ∨
      (RepetitionCounter.init ex w).primary_angle = "leg") ∧
    ((RepetitionCounter.init ex w).primary_angle = "arm" →
      (RepetitionCounter.init ex w).get_primary_angle angles =
        primary_angle_spec angles.left_arm angles.right_arm) ∧
    ((RepetitionCounter.init ex w).primary_angle = "leg" →
      (RepetitionCounter.init ex w).get_primary_angle angles =
        primary_angle_spec angles.left_leg angles.right_leg) := by
  refine ⟨?_, fun h => get_primary_angle_arm _ _ h, fun h => get_primary_angle_leg _ _ h⟩
  simp only [RepetitionCounter.init, setup_exercise_parameters]
  split_ifs <;> simp

/-- C9 witness: a pushups counter with both arms present returns the mean
of the two arm angles. -/
theorem claim_C9_primary_selection_witness :
    (RepetitionCounter.init "pushups" 5).get_primary_angle
        ⟨some (FloatQ.val 90), some (FloatQ.val 110), none, none⟩ =
      some (FloatQ.val 100) := by
  have h := (claim_C9_primary_selection "pushups" 5
      ⟨some (FloatQ.val 90), some (FloatQ.val 110), none, none⟩).2.1 (by decide)
  rw [h]
  simp [primary_angle_spec, FloatQ.add, FloatQ.divQ]
  norm_num

theorem FloatQ.add_nan_left (x : FloatQ) : FloatQ.add FloatQ.nan x = FloatQ.nan := by
  cases x <;> rfl

theorem FloatQ.add_nan_right (x : FloatQ) : FloatQ.add x FloatQ.nan = FloatQ.nan := by
  cases x <;> rfl

theorem FloatQ.divNat_nan (n : Nat) : FloatQ.divNat FloatQ.nan n = FloatQ.nan := by
  cases n <;> rfl

theorem foldl_add_from_nan (xs : List FloatQ) :
    xs.foldl FloatQ.add FloatQ.nan = FloatQ.nan := by
  induction xs with
  | nil => rfl
  | cons x rest ih => simp only [List.foldl_cons, FloatQ.add_nan_left, ih]

theorem floatSum_of_mem_nan (xs : List FloatQ) (acc : FloatQ) (h : FloatQ.nan ∈ xs) :
    xs.foldl FloatQ.add acc = FloatQ.nan := by
  induction xs generalizing acc with
  | nil => cases h
  | cons x rest ih =>
    rcases List.mem_cons.mp h with h1 | h2
    · rw [List.foldl_cons, ← h1, FloatQ.add_nan_right]
      exact foldl_add_from_nan rest
    · rw [List.foldl_cons]
      exact ih (acc.add x) h2

theorem npMean_of_mem_nan (xs : List FloatQ) (h : FloatQ.nan ∈ xs) :
    npMean xs = FloatQ.nan := by
  unfold npMean floatSum
  rw [floatSum_of_mem_nan xs (FloatQ.val 0) h, FloatQ.divNat_nan]

theorem dequeAppend_nan_mem_or_empty (xs : List FloatQ) (w : Nat) :
    FloatQ.nan ∈ dequeAppend xs FloatQ.nan w ∨ dequeAppend xs FloatQ.nan w = [] := by
  unfold dequeAppend
  simp only
  split_ifs with hlen
  · rcases Nat.eq_zero_or_pos w with hw | hw
    · right
      subst hw
      simp [List.drop_length]
    · left
      have hle : (xs ++ [FloatQ.nan]).length - w ≤ xs.length := by
        simp only [List.length_append, List.length_singleton]
        omega
      rw [List.drop_append_of_le_length hle]
      simp
  · left
    simp

theorem smooth_angle_nan (s : RepetitionCounter) :
    (s.smooth_angle FloatQ.nan).2 = FloatQ.nan := by
  unfold RepetitionCounter.smooth_angle
  simp only
  rcases dequeAppend_nan_mem_or_empty s.angle_history s.smoothing_window with h | h
  · exact npMean_of_mem_nan _ h
  · rw [h]
    rfl

theorem dequeAppend_nan_mem_of_pos (xs : List FloatQ) (w : Nat) (hw : 0 < w) :
    FloatQ.nan ∈ dequeAppend xs FloatQ.nan w := by
  unfold dequeAppend
  simp only
  split_ifs with hlen
  · have hle : (xs ++ [FloatQ.nan]).length - w ≤ xs.length := by
      simp only [List.length_append, List.length_singleton]
      omega
    rw [List.drop_append_of_le_length hle]
    simp
  · simp

/-- A pushups counter whose smoothing buffer already holds five valid
samples of 100 degrees: the concrete state on which the smoother's claimed
NaN handling is refuted. -/
def fullBuffer100 : RepetitionCounter :=
  { RepetitionCounter.init "pushups" 5 with
    angle_history :=
      [FloatQ.val 100, FloatQ.val 100, FloatQ.val 100, FloatQ.val 100, FloatQ.val 100] }

/-- C3 counterexample: the angle computation on a degenerate triple (first
point equal to the vertex) returns NaN, and the smoother fed that NaN on a
full buffer of five valid 100-degree samples returns NaN as the mean — not
100, the mean of the valid samples — and evicts the oldest valid sample to
store the NaN: the sentinel is counted, contradicting the claim. -/
theorem claim_C3_counterexample :
    calculate_angle (fun _ _ => 0) (1, 1) (1, 1) (2, 3) = FloatQ.nan ∧
    (fullBuffer100.smooth_angle FloatQ.nan).2 = FloatQ.nan ∧
    (fullBuffer100.smooth_angle FloatQ.nan).2 ≠ FloatQ.val 100 ∧
    (fullBuffer100.smooth_angle FloatQ.nan).1.angle_history =
      [FloatQ.val 100, FloatQ.val 100, FloatQ.val 100, FloatQ.val 100, FloatQ.nan] := by
  refine ⟨by norm_num [calculate_angle], ?_, ?_, ?_⟩ <;> decide

/-- C3 amended: on a degenerate triple (either edge vector of zero length)
the angle computation returns NaN without raising, and the smoother does
not treat NaN as missing: it reports NaN as the smoothed mean and, whenever
the window is positive, stores the NaN in the buffer like any sample. -/
theorem claim_C3_nan_not_skipped (degCos : ℚ → ℚ → ℚ) (p1 p2 p3 : ℚ × ℚ)
    (s : RepetitionCounter) (h : p1 = p2 ∨ p3 = p2) :
    calculate_angle degCos p1 p2 p3 = FloatQ.nan ∧
    (s.smooth_angle FloatQ.nan).2 = FloatQ.nan ∧
    (0 < s.smoothing_window →
      FloatQ.nan ∈ (s.smooth_angle FloatQ.nan).1.angle_history) := by
  refine ⟨?_, smooth_angle_nan s, fun hw => ?_⟩
  · rcases h with h | h <;> subst h <;> simp [calculate_angle]
  · exact dequeAppend_nan_mem_of_pos s.angle_history s.smoothing_window hw

/-- C3 witness: the amended statement at the concrete degenerate triple
(1,1), (1,1), (2,3) and a freshly constructed pushups counter. -/
theorem claim_C3_nan_not_skipped_witness :
    calculate_angle (fun _ _ => 0) (1, 1) (1, 1) (2, 3) = FloatQ.nan ∧
    ((RepetitionCounter.init "pushups" 5).smooth_angle FloatQ.nan).2 = FloatQ.nan ∧
    FloatQ.nan ∈
      ((RepetitionCounter.init "pushups" 5).smooth_angle FloatQ.nan).1.angle_history := by
  have h := claim_C3_nan_not_skipped (fun _ _ => 0) (1, 1) (1, 1) (2, 3)
    (RepetitionCounter.init "pushups" 5) (Or.inl rfl)
  exact ⟨h.1, h.2.1, h.2.2 (by decide)⟩

theorem hold_profile_is_planks (name : String)
    (h : (ExerciseLibrary.get_exercise name).map ExerciseConfig.movement_pattern =
      some "hold") :
    strToLower name = "planks" := by
  unfold ExerciseLibrary.get_exercise at h
  simp only at h
  split_ifs at h with h1 h2 h3 h4 h5 h6 h7
  · exact absurd h (by decide)
  · exact absurd h (by decide)
  · exact absurd h (by decide)
  · exact absurd h (by decide)
  · exact absurd h (by decide)
  · exact absurd h (by decide)
  · exact h7
  · simp at h

theorem lower_planks_not_in_lists (e : String) (h : strToLower e = "planks") :
    e ∉ (["pushups", "squats", "lunges"] : List String) ∧
    e ∉ (["pullups", "bicep_curls"] : List String) := by
  constructor <;> intro hm <;> simp only [List.mem_cons, List.not_mem_nil, or_false] at hm
  · rcases hm with h1 | h1 | h1 <;> subst h1 <;> exact absurd h (by decide)
  · rcases hm with h1 | h1 <;> subst h1 <;> exact absurd h (by decide)

theorem detect_repetition_not_listed (s : RepetitionCounter) (x : FloatQ)
    (h1 : s.exercise_type ∉ (["pushups", "squats", "lunges"] : List String))
    (h2 : s.exercise_type ∉ (["pullups", "bicep_curls"] : List String)) :
    s.detect_repetition x = (s, false) := by
  unfold RepetitionCounter.detect_repetition
  simp [h1, h2]

theorem update_not_listed (s : RepetitionCounter) (a : AngleMap)
    (h1 : s.exercise_type ∉ (["pushups", "squats", "lunges"] : List String))
    (h2 : s.exercise_type ∉ (["pullups", "bicep_curls"] : List String)) :
    (s.update a).1.rep_count = s.rep_count ∧
    (s.update a).1.current_phase = s.current_phase := by
  unfold RepetitionCounter.update
  cases hp : s.get_primary_angle a with
  | none => exact ⟨rfl, rfl⟩
  | some pa =>
    have hd := detect_repetition_not_listed (s.smooth_angle pa).1 (s.smooth_angle pa).2 h1 h2
    simp only [hd]
    exact ⟨rfl, rfl⟩

/-- C7: for every counter whose stored exercise type resolves in the
library to the hold movement pattern (planks is the only such profile), no
sequence of update calls, whatever the inputs, changes the repetition
count or the current phase; started at ready, it stays at ready. -/
theorem claim_C7_hold_profile_inert (s : RepetitionCounter) (frames : List AngleMap)
    (h : (ExerciseLibrary.get_exercise s.exercise_type).map ExerciseConfig.movement_pattern =
      some "hold") :
    (s.runUpdates frames).rep_count = s.rep_count ∧
    (s.runUpdates frames).current_phase = s.current_phase := by
  induction frames generalizing s with
  | nil => exact ⟨rfl, rfl⟩
  | cons a rest ih =>
    have hl := lower_planks_not_in_lists s.exercise_type (hold_profile_is_planks _ h)
    have hu := update_not_listed s a hl.1 hl.2
    have hex : (s.update a).1.exercise_type = s.exercise_type := update_exercise_type s a
    have hstep : s.runUpdates (a :: rest) = (s.update a).1.runUpdates rest := rfl
    have ih' := ih (s.update a).1 (by rw [hex]; exact h)
    rw [hstep]
    exact ⟨ih'.1.trans hu.1, ih'.2.trans hu.2⟩

/-- C7 witness: a planks counter fed one frame with both arms present keeps
its repetition count and phase. -/
theorem claim_C7_hold_profile_inert_witness :
    ((RepetitionCounter.init "planks" 5).runUpdates
        [⟨some (FloatQ.val 30), some (FloatQ.val 170), none, none⟩]).rep_count =
      (RepetitionCounter.init "planks" 5).rep_count ∧
    ((RepetitionCounter.init "planks" 5).runUpdates
        [⟨some (FloatQ.val 30), some (FloatQ.val 170), none, none⟩]).current_phase =
      (RepetitionCounter.init "planks" 5).current_phase :=
  claim_C7_hold_profile_inert (RepetitionCounter.init "planks" 5)
    [⟨some (FloatQ.val 30), some (FloatQ.val 170), none, none⟩] (by decide)

theorem detect_repetition_phase_inv (s : RepetitionCounter) (x : FloatQ)
    (h : s.current_phase = "ready" ∨ s.current_phase = firstLegPhase s.exercise_type) :
    (s.detect_repetition x).1.current_phase = "ready" ∨
      (s.detect_repetition x).1.current_phase = firstLegPhase s.exercise_type := by
  unfold RepetitionCounter.detect_repetition firstLegPhase
  split_ifs with hm1 hp1 ha1 hp2 ha2 hm2 hp3 ha3 hp4 ha4 <;>
    simp_all [firstLegPhase]

theorem update_phase_inv (s : RepetitionCounter) (a : AngleMap)
    (h : s.current_phase = "ready" ∨ s.current_phase = firstLegPhase s.exercise_type) :
    (s.update a).1.current_phase = "ready" ∨
      (s.update a).1.current_phase = firstLegPhase s.exercise_type := by
  unfold RepetitionCounter.update
  cases hp : s.get_primary_angle a with
  | none => exact h
  | some pa =>
    exact detect_repetition_phase_inv (s.smooth_angle pa).1 (s.smooth_angle pa).2 h

theorem update_result_phase (s : RepetitionCounter) (a : AngleMap) :
    (s.update a).2.current_phase = (s.update a).1.current_phase := by
  unfold RepetitionCounter.update
  cases hp : s.get_primary_angle a <;> rfl

theorem runUpdates_exercise_type (s : RepetitionCounter) (frames : List AngleMap) :
    (s.runUpdates frames).exercise_type = s.exercise_type := by
  induction frames generalizing s with
  | nil => rfl
  | cons a rest ih =>
    have hstep : s.runUpdates (a :: rest) = (s.update a).1.runUpdates rest := rfl
    rw [hstep, ih (s.update a).1, update_exercise_type]

theorem runUpdates_phase_inv (s : RepetitionCounter) (frames : List AngleMap)
    (h : s.current_phase = "ready" ∨ s.current_phase = firstLegPhase s.exercise_type) :
    (s.runUpdates frames).current_phase = "ready" ∨
      (s.runUpdates frames).current_phase = firstLegPhase s.exercise_type := by
  induction frames generalizing s with
  | nil => exact h
  | cons a rest ih =>
    have hstep : s.runUpdates (a :: rest) = (s.update a).1.runUpdates rest := rfl
    rw [hstep]
    have h1 := update_phase_inv s a h
    have h2 := ih (s.update a).1 (by rwa [update_exercise_type])
    rwa [update_exercise_type] at h2

/-- C10: starting a counter on any exercise and feeding it any frame
sequence, the phase reported by the next update call is always either
ready or the first-leg phase of the exercise's movement pattern; the
second-leg label assigned inside a completed repetition is overwritten to
ready within the same call and is never observable in an update result. -/
theorem claim_C10_no_second_leg_observable (ex : String) (w : Nat)
    (frames : List AngleMap) (a : AngleMap) :
    ((((RepetitionCounter.init ex w).runUpdates frames).update a).2.current_phase =
        "ready") ∨
    ((((RepetitionCounter.init ex w).runUpdates frames).update a).2.current_phase =
        firstLegPhase (RepetitionCounter.init ex w).exercise_type) := by
  have hbase : (RepetitionCounter.init ex w).current_phase = "ready" ∨
      (RepetitionCounter.init ex w).current_phase =
        firstLegPhase (RepetitionCounter.init ex w).exercise_type := Or.inl rfl
  have hinv := runUpdates_phase_inv (RepetitionCounter.init ex w) frames hbase
  have hstep := update_phase_inv ((RepetitionCounter.init ex w).runUpdates frames) a
    (by rwa [runUpdates_exercise_type])
  rw [update_result_phase]
  rwa [runUpdates_exercise_type] at hstep

end TrainingAssistant
